import Mathlib

/-!
Verification of the aptcron update-notifier script (`src/aptcron.py`).

The script is shallowly embedded: external effects (the APT package
manager, the filesystem holding the pickled seen-cache, the SMTP relay,
`os.getuid`) are parameters of the run, supplied as explicit outcome
values; everything the script itself computes (config resolution, CLI
overrides, the report text, the seen-cache transition, the dispatch and
exit-code logic) is translated function by function from the source.
-/

set_option autoImplicit false

namespace Aptcron

/-- A pending package update, `(p.name, p.versions[1].version,
p.versions[0].version)` in `aptcron.py` line 191.  Identity is exact
tuple equality. -/
structure PackageUpdate where
  name : String
  newVersion : String
  oldVersion : String
deriving Repr, DecidableEq

/-- Errors the Python run can raise before dispatch, with the data needed
to reproduce `type(e).__name__` and `str(e)`. -/
inductive RunError where
  | noSection (sectionName : String)
  | noOption (key : String)
  | valueError (msg : String)
  | aptError (name : String) (msg : String)
  | unpickling (msg : String)
deriving Repr, DecidableEq

/-- `type(e).__name__` for a pre-dispatch error. -/
def RunError.typeName : RunError → String
  | .noSection _ => "NoSectionError"
  | .noOption _ => "NoOptionError"
  | .valueError _ => "ValueError"
  | .aptError n _ => n
  | .unpickling _ => "UnpicklingError"

/-- `str(e)` for a pre-dispatch error. -/
def RunError.message : RunError → String
  | .noSection s => "No section: " ++ s
  | .noOption k => "No option: " ++ k
  | .valueError m => m
  | .aptError _ m => m
  | .unpickling m => m

/-- The string the handlers print: `'%s: %s' % (type(e).__name__, e)`
(lines 164 and 225). -/
def RunError.render (e : RunError) : String :=
  e.typeName ++ ": " ++ e.message

/-- Association-list update: replace the first binding of the key, or
append a new one. -/
def assocSet (l : List (String × String)) (k v : String) : List (String × String) :=
  match l with
  | [] => [(k, v)]
  | (k', v') :: rest => if k' = k then (k, v) :: rest else (k', v') :: assocSet rest k v

/-- Association-list lookup. -/
def assocGet (l : List (String × String)) (k : String) : Option String :=
  match l with
  | [] => none
  | (k', v) :: rest => if k' = k then some v else assocGet rest k

/-- Section lookup in a list of named sections. -/
def sectGet (l : List (String × List (String × String))) (s : String) :
    Option (List (String × String)) :=
  match l with
  | [] => none
  | (s', kvs) :: rest => if s' = s then some kvs else sectGet rest s

/-- The state of the `ConfigParser` object: the `DEFAULT` option block
(initialised from the dict literal at lines 79-94 and then merged with
the config files) plus the named sections read from config files. -/
structure ConfigData where
  defaults : List (String × String)
  sections : List (String × List (String × String))
deriving Repr, DecidableEq

/-- `config.get(section, key)`: a named section falls back to the
`DEFAULT` block; a missing section raises `NoSectionError`, a missing
option `NoOptionError`. -/
def ConfigData.get (c : ConfigData) (sec key : String) : Except RunError String :=
  if sec = "DEFAULT" then
    match assocGet c.defaults key with
    | some v => Except.ok v
    | none => Except.error (RunError.noOption key)
  else
    match sectGet c.sections sec with
    | none => Except.error (RunError.noSection sec)
    | some kvs =>
      match assocGet kvs key with
      | some v => Except.ok v
      | none =>
        match assocGet c.defaults key with
        | some v => Except.ok v
        | none => Except.error (RunError.noOption key)

/-- `config.set(section, key, value)`: raises `NoSectionError` when the
section is neither `DEFAULT` nor present in the parsed files. -/
def ConfigData.set (c : ConfigData) (sec key value : String) : Except RunError ConfigData :=
  if sec = "DEFAULT" then
    Except.ok { c with defaults := assocSet c.defaults key value }
  else
    match sectGet c.sections sec with
    | none => Except.error (RunError.noSection sec)
    | some kvs =>
      Except.ok { c with sections :=
        (c.sections.map (fun p => if p.1 = sec then (p.1, assocSet kvs key value) else p)) }

/-- `ConfigParser` boolean coercion used by `config.getboolean`. -/
def parseConfigBool (v : String) : Except RunError Bool :=
  if v = "1" ∨ v = "yes" ∨ v = "true" ∨ v = "on" then Except.ok true
  else if v = "0" ∨ v = "no" ∨ v = "false" ∨ v = "off" then Except.ok false
  else Except.error (RunError.valueError ("Not a boolean: " ++ v))

/-- `config.getboolean(section, key)`. -/
def cfgGetBool (c : ConfigData) (sec key : String) : Except RunError Bool :=
  (c.get sec key).bind parseConfigBool

/-- The dict literal of built-in defaults passed to `ConfigParser`
(lines 79-94), with `hostname` a parameter. -/
def builtinDefaults (host : String) : List (String × String) :=
  [("no-update", "no"), ("only-new", "no"), ("force", "no"), ("no-mail", "no"),
   ("mail-from", "root@" ++ host), ("mail-to", "root@" ++ host),
   ("mail-subject", "[aptcron] {shorthost}: {num} APT updates"),
   ("smtp-host", "localhost"), ("smtp-port", "25"),
   ("smtp-user", ""), ("smtp-password", ""), ("smtp-starttls", "force")]

/-- The config state when no config file contributes anything. -/
def defaultConfig (host : String) : ConfigData :=
  { defaults := builtinDefaults host, sections := [] }

/-- The result of `argparse`: `store_true` flags are `false` when absent;
string/int options are `none` when absent. -/
structure Args where
  noUpdate : Bool
  onlyNew : Bool
  force : Bool
  noMail : Bool
  sectionName : String
  mailFrom : Option String
  mailTo : Option String
  mailSubject : Option String
  smtpHost : Option String
  smtpPort : Option Int
  smtpUser : Option String
  smtpPassword : Option String
  smtpStarttls : Option String
deriving Repr, DecidableEq

/-- A parse with no options supplied (`--section` defaults to `DEFAULT`). -/
def emptyArgs (sec : String) : Args :=
  { noUpdate := false, onlyNew := false, force := false, noMail := false,
    sectionName := sec, mailFrom := none, mailTo := none, mailSubject := none,
    smtpHost := none, smtpPort := none, smtpUser := none,
    smtpPassword := none, smtpStarttls := none }

/-- One `if args.flag: config.set(section, key, 'yes')` step
(lines 103-110). -/
def cliSetFlag (sec key : String) (flag : Bool) (c : ConfigData) : Except RunError ConfigData :=
  if flag then c.set sec key "yes" else Except.ok c

/-- One `if args.value: config.set(section, key, args.value)` step for a
string option (lines 111-118 and 121-126).  Python truthiness: `None`
and the empty string are both falsy, so a supplied empty string is
ignored. -/
def cliSetStr (sec key : String) (v : Option String) (c : ConfigData) :
    Except RunError ConfigData :=
  match v with
  | some s => if s = "" then Except.ok c else c.set sec key s
  | none => Except.ok c

/-- The `smtp-port` step (lines 119-120): `int` truthiness, so a supplied
`0` is ignored; the stored value is `str(args.smtp_port)`. -/
def cliSetInt (sec key : String) (v : Option Int) (c : ConfigData) :
    Except RunError ConfigData :=
  match v with
  | some n => if n = 0 then Except.ok c else c.set sec key (toString n)
  | none => Except.ok c

/-- Lines 102-126: the module-level block applying CLI overrides onto the
parsed config, in source order.  A `NoSectionError` raised here is
uncaught in the script (the block runs before the output capture and
before the `try` at line 179). -/
def applyCliOverrides (cfg : ConfigData) (args : Args) : Except RunError ConfigData :=
  (Except.ok cfg)
    >>= cliSetFlag args.sectionName "no-update" args.noUpdate
    >>= cliSetFlag args.sectionName "only-new" args.onlyNew
    >>= cliSetFlag args.sectionName "force" args.force
    >>= cliSetFlag args.sectionName "no-mail" args.noMail
    >>= cliSetStr args.sectionName "mail-from" args.mailFrom
    >>= cliSetStr args.sectionName "mail-to" args.mailTo
    >>= cliSetStr args.sectionName "mail-subject" args.mailSubject
    >>= cliSetStr args.sectionName "smtp-host" args.smtpHost
    >>= cliSetInt args.sectionName "smtp-port" args.smtpPort
    >>= cliSetStr args.sectionName "smtp-user" args.smtpUser
    >>= cliSetStr args.sectionName "smtp-password" args.smtpPassword
    >>= cliSetStr args.sectionName "smtp-starttls" args.smtpStarttls

/-- The filesystem state the script touches: whether `/var/cache/aptcron`
exists, and the contents of the pickled `seen` file (`none` = the file
does not exist).  `pickle` round-trips a list of string tuples exactly,
so the file is modelled by the list it deserialises to. -/
structure CacheState where
  dirExists : Bool
  seenFile : Option (List PackageUpdate)
deriving Repr, DecidableEq

/-- Reading the baseline: the contents of the seen file, empty when the
file is absent (`seen = []` at line 194, overwritten from
`pickle.load` at line 196 only when the file exists). -/
def loadSeen (st : CacheState) : List PackageUpdate :=
  st.seenFile.getD []

/-- Line 197: `packages = [p for p in packages if p not in seen]`. -/
def filter_new (packages seen : List PackageUpdate) : List PackageUpdate :=
  packages.filter (fun p => decide (¬ p ∈ seen))

/-- Lines 211-217: the seen-cache commit.  `os.makedirs(CACHE_DIR)` runs
when the directory is missing; then, if `context['num'] == 0` and the
seen file exists it is removed, otherwise `seen + packages` is pickled
over it. -/
def commitSeen (st : CacheState) (seen packages : List PackageUpdate) (num : Nat) :
    CacheState :=
  let st1 : CacheState := { st with dirExists := true }
  if (num == 0) && st1.seenFile.isSome then { st1 with seenFile := none }
  else { st1 with seenFile := some (seen ++ packages) }

/-- Line 209: `'* %s: %s -> %s' % (name, new, old)`. -/
def updateLine (p : PackageUpdate) : String :=
  "* " ++ p.name ++ ": " ++ p.newVersion ++ " -> " ++ p.oldVersion

/-- Lines 199-220: the concatenation of everything the report section
prints into the captured output - the header (lines 199-206), one line
per update (lines 208-209) and the trailer (lines 219-220).  `print`
appends a newline to each of them.  The header number is `context['num']`
(set before the only-new filter), and the `seen`-nonempty test is the
Python truthiness of the loaded baseline list. -/
def formatReport (packages : List PackageUpdate) (onlyNew force : Bool)
    (seen : List PackageUpdate) (num : Nat) : String :=
  (if packages.isEmpty then
     (if force then "No packages found.\n" else "")
   else if onlyNew && !seen.isEmpty then
     toString num ++ " available update(s), new since the last mail:\n"
   else
     toString num ++ " available update(s):\n")
  ++ String.join (packages.map (fun p => updateLine p ++ "\n"))
  ++ (if packages.isEmpty then "" else "\nPlease update all packages at your earliest convenience.\n")

instance instDecidableEqExcept {ε α : Type} [DecidableEq ε] [DecidableEq α] :
    DecidableEq (Except ε α) := fun x y =>
  match x, y with
  | Except.ok a, Except.ok b =>
    if h : a = b then Decidable.isTrue (congrArg Except.ok h)
    else Decidable.isFalse (fun hh => h (Except.ok.inj hh))
  | Except.error a, Except.error b =>
    if h : a = b then Decidable.isTrue (congrArg Except.error h)
    else Decidable.isFalse (fun hh => h (Except.error.inj hh))
  | Except.ok _, Except.error _ => Decidable.isFalse (fun hh => Except.noConfusion hh)
  | Except.error _, Except.ok _ => Decidable.isFalse (fun hh => Except.noConfusion hh)

/-- The outcomes of the external calls the guarded body makes: the
caller's uid, the result of `cache.update()`, the result of
`cache.open/upgrade/get_changes`, and whether `pickle.load` on the seen
file raises. -/
structure RunEnv where
  uid : Nat
  refreshResult : Except RunError Unit
  listResult : Except RunError (List PackageUpdate)
  cacheCorrupt : Bool
deriving Repr, DecidableEq

/-- Attach the value `context['num']` had when an error was raised
(`none` before line 192 executes, `some num` afterwards). -/
def errAt {α : Type} (n : Option Nat) (x : Except RunError α) :
    Except (RunError × Option Nat) α :=
  x.mapError (fun e => (e, n))

/-- What the guarded body produces when it reaches `send_mail` at
line 223. -/
structure BodyOut where
  output : String
  num : Nat
  seen : List PackageUpdate
  packages : List PackageUpdate
  cache : CacheState
deriving Repr, DecidableEq

/-- Lines 179-223, the body of the `try` block: refresh and list the
pending upgrades, set `context['num']`, load and apply the baseline in
only-new mode, print the report, commit the seen cache.  Every fallible
step runs before anything is printed (the `force` lookup happens only in
the empty-set branch, before its own print), so an error always leaves
the captured output empty; the error value records what `context['num']`
was at raise time. -/
def tryBody (cfg : ConfigData) (sec : String) (env : RunEnv) (st : CacheState) :
    Except (RunError × Option Nat) BodyOut := do
  let noUpd ← errAt none (cfgGetBool cfg sec "no-update")
  if noUpd = false then errAt none env.refreshResult
  let raw ← errAt none env.listResult
  let num := raw.length
  let onlyNew ← errAt (some num) (cfgGetBool cfg sec "only-new")
  let seen ←
    if onlyNew && st.seenFile.isSome then
      if env.cacheCorrupt then
        errAt (some num) (Except.error (RunError.unpickling "could not load seen cache"))
      else
        Except.ok (st.seenFile.getD [])
    else
      Except.ok ([] : List PackageUpdate)
  let packages := if onlyNew && st.seenFile.isSome then filter_new raw seen else raw
  let force ←
    if packages.isEmpty then errAt (some num) (cfgGetBool cfg sec "force")
    else Except.ok false
  let cache := if onlyNew then commitSeen st seen packages num else st
  Except.ok { output := formatReport packages onlyNew force seen num,
              num := num, seen := seen, packages := packages, cache := cache }

/-- Errors raised inside `send_mail`'s `try` block (lines 133-162), with
the data to reproduce `'%s: %s' % (type(e).__name__, e)`. -/
inductive MailError where
  | run (e : RunError)
  | keyError (key : String)
  | tlsRequired
  | smtpError (name : String) (msg : String)
deriving Repr, DecidableEq

/-- The handler output at line 164 for a dispatch error. -/
def MailError.render : MailError → String
  | .run e => e.render
  | .keyError k => "KeyError: " ++ k
  | .tlsRequired => "RuntimeError: STARTTLS forced but not supported by SMTP-server."
  | .smtpError n m => n ++ ": " ++ m

/-- Is the first list a prefix of the second? -/
def isPrefixList : List Char → List Char → Bool
  | [], _ => true
  | _ :: _, [] => false
  | a :: as, b :: bs => a == b && isPrefixList as bs

/-- Does `pat` occur as a contiguous run in `s`? -/
def hasSubAux (pat : List Char) : List Char → Bool
  | [] => isPrefixList pat []
  | c :: rest => isPrefixList pat (c :: rest) || hasSubAux pat rest

/-- Does `pat` occur in `s`? -/
def hasSub (s pat : String) : Bool :=
  hasSubAux pat.data s.data

/-- Python `template.format(**context)` for the three context keys the
script uses.  `context` always holds `host` and `shorthost` (lines
73-76); `num` is added only at line 192, so a template that references
`{num}` raises `KeyError` when formatted before that point. -/
def pyFormat (t host shorthost : String) (num : Option Nat) : Except MailError String :=
  if hasSub t "{num}" && num.isNone then Except.error (MailError.keyError "num")
  else
    Except.ok (((t.replace "{host}" host).replace "{shorthost}" shorthost).replace
      "{num}" (toString (num.getD 0)))

/-- Python `int(s)` on a configuration value, as far as the script needs
it: a non-empty digit string parses, anything else raises `ValueError`. -/
def pyInt? (s : String) : Option Int :=
  if s.data ≠ [] ∧ s.data.all (fun c => c.isDigit) then
    some (Int.ofNat (s.data.foldl (fun n c => n * 10 + (c.toNat - 48)) 0))
  else none

/-- The observable behaviour of the SMTP relay for the single dispatch
attempt: whether the connection opens, whether the server accepts
`STARTTLS`, whether `login` succeeds, whether `sendmail` succeeds. -/
structure SmtpEnv where
  connectOk : Bool
  supportsStartTLS : Bool
  loginOk : Bool
  sendOk : Bool
deriving Repr, DecidableEq

/-- The outcome of the `STARTTLS` block, lines 148-154. -/
structure TLSResult where
  attempted : Bool
  encrypted : Bool
deriving Repr, DecidableEq

/-- Lines 148-154: `if starttls in ('yes', 'force'): try s.starttls()
except SMTPException: if starttls == 'force': raise RuntimeError(...)`.
An unsupported `STARTTLS` is swallowed under `yes` (delivery proceeds
unencrypted) and fatal under `force`. -/
def negotiateTLS (starttls : String) (supported : Bool) : Except MailError TLSResult :=
  if starttls = "yes" ∨ starttls = "force" then
    if supported then Except.ok { attempted := true, encrypted := true }
    else if starttls = "force" then Except.error MailError.tlsRequired
    else Except.ok { attempted := true, encrypted := false }
  else Except.ok { attempted := false, encrypted := false }

/-- The composed message headers (lines 138-141). -/
structure MailMsg where
  subject : String
  fromAddr : String
  toAddr : String
deriving Repr, DecidableEq

/-- Lines 138-162, the fallible part of the mail branch: compose the
headers from the configured templates, connect, negotiate `STARTTLS`,
authenticate when both `smtp-user` and `smtp-password` are non-empty,
and send.  Any raised error is the value of the surrounding `except`. -/
def dispatchAttempt (cfg : ConfigData) (sec host shorthost : String) (num : Option Nat)
    (env : SmtpEnv) : Except MailError (MailMsg × TLSResult) := do
  let subjTmpl ← (cfg.get sec "mail-subject").mapError MailError.run
  let subject ← pyFormat subjTmpl host shorthost num
  let fromTmpl ← (cfg.get sec "mail-from").mapError MailError.run
  let fromAddr ← pyFormat fromTmpl host shorthost num
  let toTmpl ← (cfg.get sec "mail-to").mapError MailError.run
  let toAddr ← pyFormat toTmpl host shorthost num
  let _ ← (cfg.get sec "smtp-host").mapError MailError.run
  let portStr ← (cfg.get sec "smtp-port").mapError MailError.run
  let _ ← (match pyInt? portStr with
    | some n => Except.ok n
    | none => Except.error (MailError.run
        (RunError.valueError ("invalid literal for int: " ++ portStr))))
  if env.connectOk = false then
    Except.error (MailError.smtpError "SMTPConnectError" "could not connect to SMTP server")
  let starttls ← (cfg.get sec "smtp-starttls").mapError MailError.run
  let tls ← negotiateTLS starttls env.supportsStartTLS
  let user ← (cfg.get sec "smtp-user").mapError MailError.run
  let password ← (cfg.get sec "smtp-password").mapError MailError.run
  if user ≠ "" ∧ password ≠ "" ∧ env.loginOk = false then
    Except.error (MailError.smtpError "SMTPAuthenticationError" "authentication failed")
  if env.sendOk = false then
    Except.error (MailError.smtpError "SMTPException" "could not send mail")
  Except.ok ({ subject := subject, fromAddr := fromAddr, toAddr := toAddr }, tls)

/-- Python `str.strip()`: drop leading and trailing whitespace. -/
def pyStrip (s : String) : String :=
  String.mk (((s.data.dropWhile Char.isWhitespace).reverse.dropWhile
    Char.isWhitespace).reverse)

/-- What one call to `send_mail` does to the world. -/
structure SendResult where
  exitCode : Option Nat
  mailSent : Bool
  sentMsg : Option MailMsg
  stdoutWrites : List String
  stderrWrites : List String
deriving Repr, DecidableEq

/-- Lines 128-167, `send_mail`.  With `args.no_mail` (the CLI flag is
what line 130 tests, not the config value) the stripped buffer is
printed to the real stdout and the caller's code is the exit code.
Otherwise, an empty stripped buffer returns without exiting
(`exitCode = none`: the caller falls off the end of the script, exit 0);
a non-empty body is dispatched and any error forces exit code 2 with the
error printed to the real stderr. -/
def send_mail (noMail : Bool) (buffer : String) (cfg : ConfigData)
    (sec host shorthost : String) (num : Option Nat) (env : SmtpEnv) (code : Nat) :
    SendResult :=
  if noMail then
    { exitCode := some code, mailSent := false, sentMsg := none,
      stdoutWrites := [pyStrip buffer ++ "\n"], stderrWrites := [] }
  else
    let body := pyStrip buffer
    if body = "" then
      { exitCode := none, mailSent := false, sentMsg := none,
        stdoutWrites := [], stderrWrites := [] }
    else
      match dispatchAttempt cfg sec host shorthost num env with
      | Except.ok (msg, _) =>
          { exitCode := some code, mailSent := true, sentMsg := some msg,
            stdoutWrites := [], stderrWrites := [] }
      | Except.error e =>
          { exitCode := some 2, mailSent := false, sentMsg := none,
            stdoutWrites := [], stderrWrites := [e.render ++ "\n"] }

/-- The state of the run when it reaches (or fails to reach) the single
dispatch call. -/
structure MainResult where
  faulted : Bool
  buffer : String
  dispatchCode : Nat
  numCtx : Option Nat
  cache : CacheState
  cfg : ConfigData
deriving Repr, DecidableEq

/-- Lines 102-226 up to the dispatch call: apply the CLI overrides (an
error there is an uncaught fault - it precedes the output capture at
lines 169-173), then capture output, check `os.getuid()`, and run the
guarded body; each failure path prints into the captured buffer and
selects the code passed to `send_mail`. -/
def mainRun (cfg0 : ConfigData) (args : Args) (env : RunEnv) (st : CacheState) :
    MainResult :=
  match applyCliOverrides cfg0 args with
  | Except.error _ =>
      { faulted := true, buffer := "", dispatchCode := 1, numCtx := none,
        cache := st, cfg := cfg0 }
  | Except.ok cfg =>
      if env.uid ≠ 0 then
        { faulted := false, buffer := "aptcron requires root-privileges to run.\n",
          dispatchCode := 1, numCtx := none, cache := st, cfg := cfg }
      else
        match tryBody cfg args.sectionName env st with
        | Except.ok b =>
            { faulted := false, buffer := b.output, dispatchCode := 0,
              numCtx := some b.num, cache := b.cache, cfg := cfg }
        | Except.error (e, n) =>
            { faulted := false, buffer := e.render ++ "\n", dispatchCode := 1,
              numCtx := n, cache := st, cfg := cfg }

/-- The whole process: what it exits with and what `send_mail` did.  An
uncaught fault exits 1 through the interpreter without reaching
`send_mail`. -/
structure ProcessResult where
  unhandledFault : Bool
  exitCode : Nat
  sendRes : Option SendResult
  mainRes : MainResult
deriving Repr, DecidableEq

/-- One full invocation of the script.  When `send_mail` returns instead
of exiting (empty body in mail mode) the script falls off the end of the
module and the interpreter exits 0. -/
def fullRun (cfg0 : ConfigData) (args : Args) (host shorthost : String)
    (envR : RunEnv) (envS : SmtpEnv) (st : CacheState) : ProcessResult :=
  let m := mainRun cfg0 args envR st
  if m.faulted then
    { unhandledFault := true, exitCode := 1, sendRes := none, mainRes := m }
  else
    let sr := send_mail args.noMail m.buffer m.cfg args.sectionName host shorthost
      m.numCtx envS m.dispatchCode
    { unhandledFault := false, exitCode := sr.exitCode.getD 0,
      sendRes := some sr, mainRes := m }

theorem string_append_assoc (a b c : String) : (a ++ b) ++ c = a ++ (b ++ c) := by
  apply String.ext
  simp [String.data_append, List.append_assoc]

theorem exceptBind_ok {ε α β : Type} (a : α) (f : α → Except ε β) :
    ((Except.ok a : Except ε α) >>= f) = f a := rfl

theorem exceptBind_error {ε α β : Type} (e : ε) (f : α → Except ε β) :
    ((Except.error e : Except ε α) >>= f) = Except.error e := rfl

theorem errAt_ok {α : Type} (n : Option Nat) (a : α) :
    errAt n (Except.ok a) = Except.ok a := rfl

theorem errAt_error {α : Type} (n : Option Nat) (e : RunError) :
    errAt n (Except.error e : Except RunError α) = Except.error (e, n) := rfl

/-- C6: `filter_new` is exact set difference on `PackageUpdate` tuples:
its members are exactly the members of the current list not in the
baseline, `filter_new S S = []`, and `filter_new S [] = S`. -/
theorem filter_new_set_difference (S B : List PackageUpdate) :
    (∀ p, p ∈ filter_new S B ↔ (p ∈ S ∧ p ∉ B)) ∧
    filter_new S S = [] ∧ filter_new S [] = S := by
  refine ⟨fun p => ?_, ?_, ?_⟩ <;> simp [filter_new]

/-- C4: the commit transition of the seen cache: when the total
outstanding count is `0` and a baseline file exists the file is removed
(and a subsequent load returns the empty baseline); in every other case
the file afterwards holds exactly the loaded baseline followed by the
newly reported updates, with no deduplication. -/
theorem seen_cache_commit_transition (st : CacheState) (seen cur : List PackageUpdate)
    (num : Nat) :
    (num = 0 → st.seenFile.isSome = true →
      commitSeen st seen cur num = { dirExists := true, seenFile := none } ∧
      loadSeen (commitSeen st seen cur num) = []) ∧
    (¬ (num = 0 ∧ st.seenFile.isSome = true) →
      commitSeen st seen cur num =
        { dirExists := true, seenFile := some (seen ++ cur) }) := by
  constructor
  · rintro rfl h2
    constructor <;> simp [commitSeen, loadSeen, h2]
  · intro h
    have hb : ((num == 0) && st.seenFile.isSome) = false := by
      rcases Nat.eq_zero_or_pos num with h0 | h0
      · subst h0
        cases hs : st.seenFile.isSome
        · simp
        · exact absurd ⟨rfl, hs⟩ h
      · have hne : num ≠ 0 := Nat.pos_iff_ne_zero.mp h0
        simp [hne]
    simp [commitSeen, hb]

/-- Witness for `seen_cache_commit_transition` at a concrete state. -/
theorem seen_cache_commit_transition_witness :
    (commitSeen { dirExists := true, seenFile := some [] }
        [] [{ name := "foo", newVersion := "2.0", oldVersion := "1.0" }] 0 =
      { dirExists := true, seenFile := none }) ∧
    (commitSeen { dirExists := false, seenFile := none }
        [] [{ name := "foo", newVersion := "2.0", oldVersion := "1.0" }] 1 =
      { dirExists := true,
        seenFile := some [{ name := "foo", newVersion := "2.0", oldVersion := "1.0" }] }) := by
  constructor
  · exact ((seen_cache_commit_transition { dirExists := true, seenFile := some [] }
      [] [{ name := "foo", newVersion := "2.0", oldVersion := "1.0" }] 0).1 rfl rfl).1
  · exact (seen_cache_commit_transition
      { dirExists := false, seenFile := none } [] _ 1).2 (by simp)

/-- C7: committing with a positive total count and then loading yields
exactly the loaded baseline followed by the current updates (the
serialised list round-trips exactly), so in particular every element of
either list is present afterwards - accumulation, not replacement. -/
theorem seen_cache_roundtrip (st : CacheState) (seen cur : List PackageUpdate) (num : Nat)
    (h : 0 < num) :
    loadSeen (commitSeen st seen cur num) = seen ++ cur ∧
    ∀ p : PackageUpdate, (p ∈ seen ∨ p ∈ cur) →
      p ∈ loadSeen (commitSeen st seen cur num) := by
  have hne : num ≠ 0 := Nat.pos_iff_ne_zero.mp h
  constructor
  · simp [commitSeen, loadSeen, hne]
  · intro p hp
    simp [commitSeen, loadSeen, hne]
    tauto

/-- Witness for `seen_cache_roundtrip` at a concrete state. -/
theorem seen_cache_roundtrip_witness :
    loadSeen (commitSeen { dirExists := true, seenFile := some [] }
        [{ name := "a", newVersion := "2", oldVersion := "1" }]
        [{ name := "b", newVersion := "4", oldVersion := "3" }] 1) =
      [{ name := "a", newVersion := "2", oldVersion := "1" },
       { name := "b", newVersion := "4", oldVersion := "3" }] :=
  (seen_cache_roundtrip { dirExists := true, seenFile := some [] } _ _ 1 (by decide)).1

/-- C3: the four-way header rule of the report formatter, the rendering
of each update line, and the blank-line-plus-reminder trailer appended
exactly when the update set is non-empty. -/
theorem report_format_four_way (packages seen : List PackageUpdate)
    (onlyNew force : Bool) (num : Nat) :
    (packages ≠ [] → onlyNew = true → seen ≠ [] →
      formatReport packages onlyNew force seen num =
        toString num ++ " available update(s), new since the last mail:\n" ++
        String.join (packages.map (fun p => updateLine p ++ "\n")) ++
        "\nPlease update all packages at your earliest convenience.\n") ∧
    (packages ≠ [] → (onlyNew = false ∨ seen = []) →
      formatReport packages onlyNew force seen num =
        toString num ++ " available update(s):\n" ++
        String.join (packages.map (fun p => updateLine p ++ "\n")) ++
        "\nPlease update all packages at your earliest convenience.\n") ∧
    (packages = [] → force = true →
      formatReport packages onlyNew force seen num = "No packages found.\n") ∧
    (packages = [] → force = false →
      formatReport packages onlyNew force seen num = "") := by
  refine ⟨?_, ?_, ?_, ?_⟩
  · rintro h1 rfl h3
    simp [formatReport, h1, h3]
  · rintro h1 (rfl | rfl)
    · simp [formatReport, h1]
    · simp [formatReport, h1]
  · rintro rfl rfl
    rfl
  · rintro rfl rfl
    rfl

/-- Witness for `report_format_four_way`: Scenario C of the spec. -/
theorem report_format_four_way_witness :
    formatReport [{ name := "foo", newVersion := "2.0", oldVersion := "1.0" }]
        false false [] 1 =
      "1 available update(s):\n* foo: 2.0 -> 1.0\n\nPlease update all packages at your earliest convenience.\n" :=
  ((report_format_four_way
      [{ name := "foo", newVersion := "2.0", oldVersion := "1.0" }] [] false false 1).2.1
    (by decide) (Or.inl rfl)).trans (by decide)

/-- C2 counterexample: with `no-mail` enabled and an empty report,
dispatch is not a no-op - line 131 unconditionally prints the (stripped,
empty) buffer, so a newline is written to the real stdout. -/
theorem empty_report_no_mail_prints_counterexample :
    (send_mail true "" (defaultConfig "h") "DEFAULT" "h" "h" (some 0)
        { connectOk := true, supportsStartTLS := true, loginOk := true, sendOk := true }
        0).stdoutWrites = ["\n"] ∧
    (["\n"] : List String) ≠ [] := by
  exact ⟨rfl, by simp⟩

/-- C2 amended: with an empty report, no mail is ever sent and the run
exits 0; when `no-mail` is disabled dispatch truly does nothing (no
output on any channel), but when `no-mail` is enabled the empty report
is still printed, writing one newline to stdout. -/
theorem empty_report_dispatch (cfg : ConfigData) (sec host short : String)
    (num : Option Nat) (env : SmtpEnv) (code : Nat) :
    send_mail false "" cfg sec host short num env code =
      { exitCode := none, mailSent := false, sentMsg := none,
        stdoutWrites := [], stderrWrites := [] } ∧
    send_mail true "" cfg sec host short num env code =
      { exitCode := some code, mailSent := false, sentMsg := none,
        stdoutWrites := ["\n"], stderrWrites := [] } ∧
    (send_mail false "" cfg sec host short num env code).exitCode.getD 0 = 0 ∧
    (send_mail true "" cfg sec host short num env 0).exitCode = some 0 := by
  have ht : pyStrip "" = "" := rfl
  refine ⟨?_, ?_, ?_, ?_⟩ <;> simp [send_mail, ht]

/-- C5: the STARTTLS policy: under `"no"` no negotiation is attempted;
under `"yes"` it is attempted and an unsupported server still yields an
unencrypted delivery; under `"force"` an unsupported server aborts the
dispatch with the `RuntimeError`, no mail is sent, and the exit code is
forced to 2 whatever code the caller passed in. -/
theorem starttls_policy (sup lo se : Bool) (host short buffer : String)
    (n code : Nat) (hbody : pyStrip buffer ≠ "") :
    (negotiateTLS "no" sup = Except.ok { attempted := false, encrypted := false }) ∧
    (negotiateTLS "yes" true = Except.ok { attempted := true, encrypted := true }) ∧
    (negotiateTLS "yes" false = Except.ok { attempted := true, encrypted := false }) ∧
    (negotiateTLS "force" false = Except.error MailError.tlsRequired) ∧
    (send_mail false buffer (defaultConfig host) "DEFAULT" host short (some n)
        { connectOk := true, supportsStartTLS := false, loginOk := lo, sendOk := se }
        code =
      { exitCode := some 2, mailSent := false, sentMsg := none, stdoutWrites := [],
        stderrWrites :=
          ["RuntimeError: STARTTLS forced but not supported by SMTP-server.\n"] }) := by
  refine ⟨by simp [negotiateTLS], rfl, rfl, rfl, ?_⟩
  simp only [send_mail, if_neg hbody, Bool.false_eq_true, if_false]
  have hp : pyInt? "25" = some 25 := rfl
  have hd : dispatchAttempt (defaultConfig host) "DEFAULT" host short (some n)
      { connectOk := true, supportsStartTLS := false, loginOk := lo, sendOk := se } =
      Except.error MailError.tlsRequired := by
    simp [dispatchAttempt, defaultConfig, builtinDefaults, ConfigData.get, assocGet,
      pyFormat, negotiateTLS, exceptBind_ok, exceptBind_error, Except.mapError, hp]
  rw [hd]
  rfl

/-- Witness for `starttls_policy`: Scenario E at a concrete buffer. -/
theorem starttls_policy_witness :
    send_mail false "1 update\n" (defaultConfig "h") "DEFAULT" "h" "h" (some 1)
        { connectOk := true, supportsStartTLS := false, loginOk := true, sendOk := true }
        0 =
      { exitCode := some 2, mailSent := false, sentMsg := none, stdoutWrites := [],
        stderrWrites :=
          ["RuntimeError: STARTTLS forced but not supported by SMTP-server.\n"] } :=
  (starttls_policy false true true "h" "h" "1 update\n" 1 0 (by decide)).2.2.2.2

/-- C10: in only-new mode, a run with zero pending updates and no
pre-existing baseline file creates the cache directory and writes a
baseline file holding the empty sequence - afterwards the file exists
rather than the store being back in the no-baseline state. -/
theorem only_new_empty_run_writes_empty_baseline
    (cfg : ConfigData) (sec : String) (env : RunEnv) (st : CacheState) (f : Bool)
    (hnu : cfgGetBool cfg sec "no-update" = Except.ok true)
    (hls : env.listResult = Except.ok [])
    (hon : cfgGetBool cfg sec "only-new" = Except.ok true)
    (hf : cfgGetBool cfg sec "force" = Except.ok f)
    (hsf : st.seenFile = none) :
    ∃ b, tryBody cfg sec env st = Except.ok b ∧
      b.cache = { dirExists := true, seenFile := some [] } ∧
      b.cache.seenFile.isSome = true := by
  refine ⟨{ output := formatReport [] true f [] 0, num := 0, seen := [], packages := [],
            cache := { dirExists := true, seenFile := some [] } }, ?_, rfl, rfl⟩
  simp only [tryBody, hnu, hls, hon, hf, hsf, errAt_ok, exceptBind_ok, List.length_nil,
    Option.isSome_none, Bool.and_false, Bool.false_eq_true, if_false, ite_false,
    List.isEmpty_nil, if_true, ite_true, commitSeen, Option.isSome_some]
  rfl

/-- C9: in only-new mode with a baseline that filters some updates out,
the number rendered in the report header is the total pending count
before filtering (the length of the unfiltered list), not the number of
updates listed below; and the same total is what `{num}` expands to when
a template is formatted against the run context. -/
theorem only_new_header_total_count
    (cfg : ConfigData) (sec : String) (env : RunEnv) (st : CacheState)
    (raw seen : List PackageUpdate) (q : PackageUpdate)
    (hnu : cfgGetBool cfg sec "no-update" = Except.ok true)
    (hls : env.listResult = Except.ok raw)
    (hon : cfgGetBool cfg sec "only-new" = Except.ok true)
    (hsf : st.seenFile = some seen)
    (hcor : env.cacheCorrupt = false)
    (hq : q ∈ raw) (hqs : q ∈ seen)
    (hne : filter_new raw seen ≠ []) :
    ∃ b, tryBody cfg sec env st = Except.ok b ∧
      b.num = raw.length ∧
      b.packages = filter_new raw seen ∧
      b.packages.length < raw.length ∧
      (∃ rest, b.output =
        toString raw.length ++ " available update(s), new since the last mail:\n" ++ rest) ∧
      (∀ t h s, pyFormat t h s (some b.num) =
        Except.ok (((t.replace "{host}" h).replace "{shorthost}" s).replace "{num}"
          (toString raw.length))) := by
  have hseenne : seen.isEmpty = false := by
    cases seen
    · exact absurd hqs (List.not_mem_nil q)
    · rfl
  have hpk : (filter_new raw seen).isEmpty = false := by
    cases hfe : filter_new raw seen
    · exact absurd hfe hne
    · rfl
  have hplt : (filter_new raw seen).length < raw.length := by
    unfold filter_new
    rcases Nat.lt_or_ge (raw.filter fun p => decide (¬ p ∈ seen)).length raw.length
      with hlt | hge
    · exact hlt
    · exfalso
      have hle := List.length_filter_le (fun p => decide (¬ p ∈ seen)) raw
      have heq := Nat.le_antisymm hle hge
      have hall := List.filter_length_eq_length.mp heq q hq
      simp [hqs] at hall
  refine ⟨{ output := formatReport (filter_new raw seen) true false seen raw.length,
            num := raw.length, seen := seen, packages := filter_new raw seen,
            cache := commitSeen st seen (filter_new raw seen) raw.length },
          ?_, rfl, rfl, hplt, ?_, ?_⟩
  · simp only [tryBody, hnu, hls, hon, hsf, hcor, errAt_ok, exceptBind_ok,
      Option.isSome_some, Bool.and_true, Bool.and_self, Option.getD_some, hpk,
      Bool.false_eq_true, if_false, ite_false, if_true, ite_true, Bool.true_and]
    rfl
  · refine ⟨String.join ((filter_new raw seen).map (fun p => updateLine p ++ "\n")) ++
      "\nPlease update all packages at your earliest convenience.\n", ?_⟩
    simp only [formatReport, hpk, hseenne, Bool.not_false, Bool.and_self,
      Bool.false_eq_true, if_false, ite_false, if_true, ite_true, Bool.true_and]
    exact string_append_assoc _ _ _
  · intro t h s
    simp [pyFormat]

/-- Witness for `only_new_empty_run_writes_empty_baseline` at a concrete
configuration and cache state. -/
theorem only_new_empty_run_writes_empty_baseline_witness :
    ∃ b, tryBody
        { defaults := [("no-update", "yes"), ("only-new", "yes"), ("force", "no")],
          sections := [] } "DEFAULT"
        { uid := 0, refreshResult := Except.ok (), listResult := Except.ok [],
          cacheCorrupt := false }
        { dirExists := false, seenFile := none } = Except.ok b ∧
      b.cache = { dirExists := true, seenFile := some [] } ∧
      b.cache.seenFile.isSome = true :=
  only_new_empty_run_writes_empty_baseline
    { defaults := [("no-update", "yes"), ("only-new", "yes"), ("force", "no")],
      sections := [] } "DEFAULT"
    { uid := 0, refreshResult := Except.ok (), listResult := Except.ok [],
      cacheCorrupt := false }
    { dirExists := false, seenFile := none } false rfl rfl rfl rfl rfl

/-- Witness for `only_new_header_total_count`: two pending updates of
which one is already in the baseline. -/
theorem only_new_header_total_count_witness :
    ∃ b, tryBody
        { defaults := [("no-update", "yes"), ("only-new", "yes")], sections := [] }
        "DEFAULT"
        { uid := 0, refreshResult := Except.ok (),
          listResult := Except.ok [⟨"foo", "2.0", "1.0"⟩, ⟨"bar", "4.0", "3.0"⟩],
          cacheCorrupt := false }
        { dirExists := true, seenFile := some [⟨"foo", "2.0", "1.0"⟩] } = Except.ok b ∧
      b.num = ([⟨"foo", "2.0", "1.0"⟩, ⟨"bar", "4.0", "3.0"⟩] : List PackageUpdate).length ∧
      b.packages = filter_new [⟨"foo", "2.0", "1.0"⟩, ⟨"bar", "4.0", "3.0"⟩]
        [⟨"foo", "2.0", "1.0"⟩] ∧
      b.packages.length <
        ([⟨"foo", "2.0", "1.0"⟩, ⟨"bar", "4.0", "3.0"⟩] : List PackageUpdate).length ∧
      (∃ rest, b.output =
        toString ([⟨"foo", "2.0", "1.0"⟩, ⟨"bar", "4.0", "3.0"⟩] : List PackageUpdate).length ++
          " available update(s), new since the last mail:\n" ++ rest) ∧
      (∀ t h s, pyFormat t h s (some b.num) =
        Except.ok (((t.replace "{host}" h).replace "{shorthost}" s).replace "{num}"
          (toString ([⟨"foo", "2.0", "1.0"⟩, ⟨"bar", "4.0", "3.0"⟩] :
            List PackageUpdate).length))) :=
  only_new_header_total_count
    { defaults := [("no-update", "yes"), ("only-new", "yes")], sections := [] } "DEFAULT"
    { uid := 0, refreshResult := Except.ok (),
      listResult := Except.ok [⟨"foo", "2.0", "1.0"⟩, ⟨"bar", "4.0", "3.0"⟩],
      cacheCorrupt := false }
    { dirExists := true, seenFile := some [⟨"foo", "2.0", "1.0"⟩] }
    [⟨"foo", "2.0", "1.0"⟩, ⟨"bar", "4.0", "3.0"⟩] [⟨"foo", "2.0", "1.0"⟩]
    ⟨"foo", "2.0", "1.0"⟩ rfl rfl rfl rfl rfl (by decide) (by decide) (by decide)

/-- Conditionally update one key of the `DEFAULT` block. -/
def condSet (d : List (String × String)) (k : String) (ov : Option String) :
    List (String × String) :=
  match ov with
  | some v => assocSet d k v
  | none => d

/-- The value Python truthiness lets a supplied string option through
with: `None` and `""` are dropped. -/
def truthyStr : Option String → Option String
  | some s => if s = "" then none else some s
  | none => none

/-- The value the `smtp-port` override stores: a supplied `0` is dropped
by truthiness, anything else is stored as `str(n)`. -/
def truthyInt : Option Int → Option String
  | some n => if n = 0 then none else some (toString n)
  | none => none

/-- The twelve option keys of the effective policy. -/
def optionKeys : List String :=
  ["no-update", "only-new", "force", "no-mail", "mail-from", "mail-to", "mail-subject",
   "smtp-host", "smtp-port", "smtp-user", "smtp-password", "smtp-starttls"]

/-- The value the CLI override block actually writes for a key (`none`
when the flag was absent or its value falsy). -/
def cliValue (args : Args) (key : String) : Option String :=
  if key = "no-update" then (if args.noUpdate then some "yes" else none)
  else if key = "only-new" then (if args.onlyNew then some "yes" else none)
  else if key = "force" then (if args.force then some "yes" else none)
  else if key = "no-mail" then (if args.noMail then some "yes" else none)
  else if key = "mail-from" then truthyStr args.mailFrom
  else if key = "mail-to" then truthyStr args.mailTo
  else if key = "mail-subject" then truthyStr args.mailSubject
  else if key = "smtp-host" then truthyStr args.smtpHost
  else if key = "smtp-port" then truthyInt args.smtpPort
  else if key = "smtp-user" then truthyStr args.smtpUser
  else if key = "smtp-password" then truthyStr args.smtpPassword
  else if key = "smtp-starttls" then truthyStr args.smtpStarttls
  else none

/-- The `DEFAULT` block after the override pass, option by option. -/
def cliDefaults (args : Args) (d : List (String × String)) : List (String × String) :=
  optionKeys.foldl (fun acc k => condSet acc k (cliValue args k)) d

theorem assocGet_assocSet_self (l : List (String × String)) (k v : String) :
    assocGet (assocSet l k v) k = some v := by
  induction l with
  | nil => simp [assocSet, assocGet]
  | cons p rest ih =>
    obtain ⟨k', v'⟩ := p
    by_cases h : k' = k
    · simp [assocSet, assocGet, h]
    · simp [assocSet, assocGet, h, ih]

theorem assocGet_assocSet_ne (l : List (String × String)) (k v key : String)
    (h : k ≠ key) :
    assocGet (assocSet l k v) key = assocGet l key := by
  induction l with
  | nil => simp [assocSet, assocGet, h]
  | cons p rest ih =>
    obtain ⟨k', v'⟩ := p
    by_cases h2 : k' = k
    · subst h2
      by_cases h3 : k' = key
      · exact absurd h3 h
      · simp [assocSet, assocGet, h, h3]
    · by_cases h3 : k' = key
      · have h4 : key ≠ k := fun hh => h hh.symm
        simp [assocSet, assocGet, h2, h3, h4]
      · simp [assocSet, assocGet, h2, h3, ih]

theorem assocGet_condSet_ne (d : List (String × String)) (k : String)
    (ov : Option String) (key : String) (h : k ≠ key) :
    assocGet (condSet d k ov) key = assocGet d key := by
  cases ov <;> simp [condSet, assocGet_assocSet_ne _ _ _ _ h]

theorem assocGet_condSet_self (d : List (String × String)) (k : String)
    (ov : Option String) :
    assocGet (condSet d k ov) k =
      (match ov with
       | some v => some v
       | none => assocGet d k) := by
  cases ov <;> simp [condSet, assocGet_assocSet_self]

theorem cliSetFlag_DEFAULT (k : String) (b : Bool) (c : ConfigData) :
    cliSetFlag "DEFAULT" k b c =
      Except.ok { c with defaults := condSet c.defaults k (if b then some "yes" else none) } := by
  cases b <;> simp [cliSetFlag, ConfigData.set, condSet]

theorem cliSetStr_DEFAULT (k : String) (v : Option String) (c : ConfigData) :
    cliSetStr "DEFAULT" k v c =
      Except.ok { c with defaults := condSet c.defaults k (truthyStr v) } := by
  cases v with
  | none => simp [cliSetStr, condSet, truthyStr]
  | some s => by_cases h : s = "" <;> simp [cliSetStr, ConfigData.set, condSet, truthyStr, h]

theorem cliSetInt_DEFAULT (k : String) (v : Option Int) (c : ConfigData) :
    cliSetInt "DEFAULT" k v c =
      Except.ok { c with defaults := condSet c.defaults k (truthyInt v) } := by
  cases v with
  | none => simp [cliSetInt, condSet, truthyInt]
  | some n => by_cases h : n = 0 <;> simp [cliSetInt, ConfigData.set, condSet, truthyInt, h]

theorem applyCliOverrides_DEFAULT (cfg : ConfigData) (args : Args)
    (h : args.sectionName = "DEFAULT") :
    applyCliOverrides cfg args =
      Except.ok { defaults := cliDefaults args cfg.defaults, sections := cfg.sections } := by
  simp only [applyCliOverrides, h, cliSetFlag_DEFAULT, cliSetStr_DEFAULT, cliSetInt_DEFAULT,
    exceptBind_ok, cliDefaults, optionKeys, List.foldl, cliValue]
  simp

theorem assocGet_cliDefaults (args : Args) (d : List (String × String)) (key : String)
    (hk : key ∈ optionKeys) :
    assocGet (cliDefaults args d) key =
      (match cliValue args key with
       | some v => some v
       | none => assocGet d key) := by
  fin_cases hk <;>
    simp only [cliDefaults, optionKeys, List.foldl] <;>
    simp [assocGet_condSet_ne, assocGet_condSet_self]

/-- C8 counterexample: `--mail-from ''` is a value the caller supplied on
the command line, yet the truthiness test at line 111 drops it, so
resolution returns the config default instead of the supplied value. -/
theorem cli_supplied_empty_value_ignored :
    applyCliOverrides (defaultConfig "h")
        { emptyArgs "DEFAULT" with mailFrom := some "" } =
      Except.ok (defaultConfig "h") ∧
    (defaultConfig "h").get "DEFAULT" "mail-from" = Except.ok "root@h" ∧
    ("root@h" : String) ≠ "" := by
  refine ⟨rfl, rfl, by decide⟩

/-- C8 amended: for every option key, a CLI-supplied truthy value (a
given boolean flag, a non-empty string, a non-zero port) overrides the
config value, while an absent option - or a supplied falsy one, which
truthiness makes indistinguishable from absent - leaves the config value
untouched; and with no CLI overrides at all the resolved policy is
exactly the merged config/defaults. -/
theorem cli_override_resolution (cfg : ConfigData) (args : Args) (key : String)
    (h : args.sectionName = "DEFAULT") (hk : key ∈ optionKeys) :
    ((applyCliOverrides cfg args).bind (fun c => c.get "DEFAULT" key) =
      (match cliValue args key with
       | some v => Except.ok v
       | none => cfg.get "DEFAULT" key)) ∧
    (∀ s, applyCliOverrides cfg (emptyArgs s) = Except.ok cfg) := by
  constructor
  · rw [applyCliOverrides_DEFAULT cfg args h]
    simp only [Except.bind]
    rw [show ({ defaults := cliDefaults args cfg.defaults, sections := cfg.sections } :
        ConfigData).get "DEFAULT" key =
      (match assocGet (cliDefaults args cfg.defaults) key with
       | some v => Except.ok v
       | none => Except.error (RunError.noOption key)) from rfl]
    rw [assocGet_cliDefaults args cfg.defaults key hk]
    cases cliValue args key <;> simp [ConfigData.get]
  · intro s
    simp [applyCliOverrides, emptyArgs, cliSetFlag, cliSetStr, cliSetInt, exceptBind_ok]

/-- Witness for `cli_override_resolution`: a supplied `--mail-to`
overrides, and no overrides resolve to the untouched config. -/
theorem cli_override_resolution_witness :
    ((applyCliOverrides (defaultConfig "h")
        { emptyArgs "DEFAULT" with mailTo := some "ops@example.org" }).bind
      (fun c => c.get "DEFAULT" "mail-to") = Except.ok "ops@example.org") ∧
    (∀ s, applyCliOverrides (defaultConfig "h") (emptyArgs s) =
      Except.ok (defaultConfig "h")) := by
  have h := cli_override_resolution (defaultConfig "h")
    { emptyArgs "DEFAULT" with mailTo := some "ops@example.org" } "mail-to" rfl (by decide)
  exact ⟨h.1.trans (by decide), h.2⟩

/-- C1 exhibit: Scenario F under the default configuration (mail mode,
default subject template).  The privilege message is captured and
`send_mail` is reached with code 1 - but the dispatch fails formatting
the subject, because `context` only receives `num` at line 192 and the
default template references `{num}`; the `except` clause forces exit
code 2, no mail is sent, and the captured report is lost. -/
theorem privilege_failure_default_config_exits_2 :
    (fullRun (defaultConfig "h.example.com") (emptyArgs "DEFAULT") "h.example.com" "h"
        { uid := 1000, refreshResult := Except.ok (), listResult := Except.ok [],
          cacheCorrupt := false }
        { connectOk := true, supportsStartTLS := true, loginOk := true, sendOk := true }
        { dirExists := true, seenFile := none }) =
      { unhandledFault := false,
        exitCode := 2,
        sendRes := some
          { exitCode := some 2,
            mailSent := false,
            sentMsg := none,
            stdoutWrites := [],
            stderrWrites := ["KeyError: num\n"] },
        mainRes :=
          { faulted := false,
            buffer := "aptcron requires root-privileges to run.\n",
            dispatchCode := 1,
            numCtx := none,
            cache := { dirExists := true, seenFile := none },
            cfg := defaultConfig "h.example.com" } } := by
  rfl

end Aptcron
